import Mathlib

/-!
Verification of the typed-parameter resolution subsystem
(`sway-core/src/semantic_analysis/ast_node/declaration/function/function_parameter.rs`).

The file embeds the source file's data model and its three checking variants
(`type_check`, `type_check_method_parameter`, `type_check_interface_parameter`),
the `PartialEq` instance and `copy_types`, together with the collaborators the
source file calls into (type engine, type resolver, diagnostic accumulation,
namespace) which live outside the given source and are modelled from the spec.
-/

set_option autoImplicit false

namespace Sway

/-- A source span. The program treats spans as opaque diagnostic locations; we
model them as an opaque index. -/
structure Span where
  pos : Nat
deriving DecidableEq, Repr

/-- An identifier: a text together with the span it was written at. -/
structure Ident where
  text : String
  span : Span
deriving DecidableEq, Repr

/-- Modelled from the spec: identifier equality compares the text only; the
span is diagnostic metadata and is excluded (`name == other.name` in the
source's `PartialEq` goes through this). -/
def Ident.eqIdent (a b : Ident) : Bool :=
  a.text == b.text

/-- `TypeId` — opaque handle into the type table. -/
abbrev TypeId := Nat

/-- Structural description of a type: primitives, user types referenced by
name, type variables, the self-type placeholder and the `ErrorRecovery`
sentinel. Modelled from the spec's data model (the `TypeInfo` enum is not part
of the given source file). -/
inductive TypeInfo where
  | Boolean : TypeInfo
  | UnsignedInteger (bits : Nat) : TypeInfo
  | Custom (name : String) : TypeInfo
  | UnknownGeneric (name : String) : TypeInfo
  | SelfType : TypeInfo
  | ErrorRecovery : TypeInfo
deriving DecidableEq, Repr

/-- Modelled from the spec: the global type table, an append-only store
mapping `TypeId → TypeInfo` with structural deduplication. -/
structure TypeEngine where
  types : List TypeInfo
deriving DecidableEq, Repr

/-- Index of the first structurally equal entry, if any (the deduplication
step of `intern`). -/
def findType : List TypeInfo → TypeInfo → Option Nat
  | [], _ => none
  | t :: ts, u => if t = u then some 0 else (findType ts u).map (· + 1)

/-- Modelled from the spec: `intern(TypeInfo) -> TypeId` deduplicates
structurally-identical entries and returns a stable handle; the table only
grows. Returns the handle and the (possibly extended) table. -/
def insert_type (eng : TypeEngine) (t : TypeInfo) : TypeId × TypeEngine :=
  match findType eng.types t with
  | some i => (i, eng)
  | none => (eng.types.length, ⟨eng.types ++ [t]⟩)

/-- Modelled from the spec: `lookup(TypeId) -> TypeInfo`, total for any handle
ever returned by `intern`; out-of-range handles degrade to the sentinel. -/
def look_up_type_id (eng : TypeEngine) (id : TypeId) : TypeInfo :=
  eng.types.getD id TypeInfo.ErrorRecovery

/-- Compile warnings. The parameter checker never produces one; the type is
kept abstract (empty) and only threaded through. -/
inductive Warning where
deriving DecidableEq, Repr

/-- The compile errors this subsystem can produce: the structural rule
violation named in the source (`MutableParameterNotSupported`) and the
recoverable resolution errors named in the spec. -/
inductive CompileError where
  | MutableParameterNotSupported (param_name : Ident) : CompileError
  | SelfOutsideImplementation (span : Span) : CompileError
  | UnknownTypeName (name : String) (span : Span) : CompileError
deriving DecidableEq, Repr

/-- Recognizer for the `MutableParameterNotSupported` error class. -/
def CompileError.isMutableParameterNotSupported : CompileError → Bool
  | .MutableParameterNotSupported _ => true
  | _ => false

/-- `CompileResult`: an optional value together with accumulated warnings and
errors. Modelled from the spec's diagnostic-accumulation protocol (the type
itself lives outside the given source file). -/
structure CompileResult (α : Type) where
  value : Option α
  warnings : List Warning
  errors : List CompileError
deriving DecidableEq, Repr

/-- `ok(value, warnings, errors)` — a value is produced; the error list may
still be non-empty (recoverable diagnostics). -/
def ok {α : Type} (value : α) (warnings : List Warning) (errors : List CompileError) :
    CompileResult α :=
  ⟨some value, warnings, errors⟩

/-- `err(warnings, errors)` — no value is produced. -/
def err {α : Type} (warnings : List Warning) (errors : List CompileError) :
    CompileResult α :=
  ⟨none, warnings, errors⟩

/-- Variable mutability classification. Modelled from the spec: the
reference/mutable flags collapse to an immutability classification; a
by-value mutable parameter classifies as `Mutable`. -/
inductive VariableMutability where
  | Mutable : VariableMutability
  | Immutable : VariableMutability
  | Reference : VariableMutability
deriving DecidableEq, Repr

/-- Modelled from the spec: the language's immutability-conversion rule.
A by-reference parameter is classified `Reference`; otherwise a mutable flag
yields `Mutable`, else `Immutable` (so `Mutable` arises exactly for
mutable-and-not-by-reference). -/
def convert_to_variable_immutability (is_reference is_mutable : Bool) :
    VariableMutability :=
  if is_reference then VariableMutability.Reference
  else if is_mutable then VariableMutability.Mutable
  else VariableMutability.Immutable

/-- `IsConstant` marker used on typed expressions. -/
inductive IsConstant where
  | Yes : IsConstant
  | No : IsConstant
deriving DecidableEq, Repr

/-- The only expression variant this subsystem builds. -/
inductive TypedExpressionVariant where
  | FunctionParameter : TypedExpressionVariant
deriving DecidableEq, Repr

/-- A typed expression, as built by `insert_into_namespace`. -/
structure TypedExpression where
  expression : TypedExpressionVariant
  return_type : TypeId
  is_constant : IsConstant
  span : Span
deriving DecidableEq, Repr

/-- A typed variable declaration, as built by `insert_into_namespace`. -/
structure TypedVariableDeclaration where
  name : Ident
  body : TypedExpression
  mutability : VariableMutability
  type_ascription : TypeId
  type_ascription_span : Option Span
deriving DecidableEq, Repr

/-- The declarations a namespace can hold; the parameter checker only ever
inserts variable declarations. -/
inductive TypedDeclaration where
  | VariableDeclaration (decl : TypedVariableDeclaration) : TypedDeclaration
deriving DecidableEq, Repr

/-- Modelled from the spec: the symbol table (namespace). `symbols` is the
current lexical scope keyed by identifier text; `type_decls` maps user type
names to their interned `TypeId`s, consulted by the type resolver. -/
structure Namespace where
  symbols : List (String × TypedDeclaration)
  type_decls : List (String × TypeId)
deriving DecidableEq, Repr

/-- Modelled from the spec: scope insertion; a later insertion with the same
name shadows the earlier binding (last-write-wins). -/
def Namespace.insert_symbol (ns : Namespace) (name : Ident) (item : TypedDeclaration) :
    Namespace :=
  { ns with symbols := (name.text, item) :: ns.symbols }

/-- Scope lookup: the most recent binding for a name. -/
def Namespace.lookup_symbol (ns : Namespace) (name : String) : Option TypedDeclaration :=
  (ns.symbols.find? (fun p => p.1 == name)).map (fun p => p.2)

/-- Enforcement policy for omitted generic type arguments. All three checking
variants pass `Yes`. -/
inductive EnforceTypeArguments where
  | Yes : EnforceTypeArguments
  | No : EnforceTypeArguments
deriving DecidableEq, Repr

/-- Modelled from the spec: the type-checking context a free-function or
method parameter is checked under — the current namespace (field `nspace`,
since `namespace` is reserved here) and the current self-type binding (absent
for free functions, bound for methods). -/
structure TypeCheckContext where
  nspace : Namespace
  self_type : Option TypeId
deriving DecidableEq, Repr

/-- Modelled from the spec: the type resolver. A self-type placeholder
resolves to the bound self-type or fails with `SelfOutsideImplementation`
when no self-type is bound; a user type name resolves against the namespace's
type declarations or fails with an unknown-name diagnostic; anything already
concrete resolves to itself. Failure yields no value and exactly one error. -/
def resolve_type_with_self (eng : TypeEngine) (ns : Namespace) (self_type : Option TypeId)
    (type_id : TypeId) (span : Span) (_enforce : EnforceTypeArguments) :
    CompileResult TypeId :=
  match look_up_type_id eng type_id with
  | TypeInfo.SelfType =>
    match self_type with
    | some self_id => ok self_id [] []
    | none => err [] [CompileError.SelfOutsideImplementation span]
  | TypeInfo.Custom n =>
    match ns.type_decls.find? (fun d => d.1 == n) with
    | some d => ok d.2 [] []
    | none => err [] [CompileError.UnknownTypeName n span]
  | _ => ok type_id [] []

/-- `TypeMapping` — a finite mapping from type-variable identities to concrete
`TypeId`s, supplied during monomorphization. Modelled from the spec. -/
abbrev TypeMapping := List (TypeId × TypeId)

/-- Modelled from the spec: `update_type` rewrites a `TypeId` against the
mapping; an identity not present in the mapping is left unchanged. -/
def TypeId.update_type (id : TypeId) (type_mapping : TypeMapping) (_span : Span) : TypeId :=
  match type_mapping.find? (fun m => m.1 == id) with
  | some m => m.2
  | none => id

/-- The untyped parameter record produced by the parser
(`FunctionParameter` in the source). -/
structure FunctionParameter where
  name : Ident
  is_reference : Bool
  is_mutable : Bool
  mutability_span : Span
  type_info : TypeInfo
  type_span : Span
deriving DecidableEq, Repr

/-- `TypedFunctionParameter` (source lines 13-22): the typed parameter record
with both the resolved (`type_id`) and the as-written (`initial_type_id`)
identities. -/
structure TypedFunctionParameter where
  name : Ident
  is_reference : Bool
  is_mutable : Bool
  mutability_span : Span
  type_id : TypeId
  initial_type_id : TypeId
  type_span : Span
deriving DecidableEq, Repr

/-- The source's `PartialEq` (lines 27-33): names compare, the looked-up
`TypeInfo` structures of the resolved type ids compare, and the `is_mutable`
flags compare; nothing else participates. -/
def TypedFunctionParameter.eqParam (eng : TypeEngine) (p1 p2 : TypedFunctionParameter) :
    Bool :=
  Ident.eqIdent p1.name p2.name
    && (look_up_type_id eng p1.type_id == look_up_type_id eng p2.type_id)
    && (p1.is_mutable == p2.is_mutable)

/-- A numeric code for a string, used by the modelled hash. -/
def stringCode (s : String) : Nat :=
  s.foldr (fun c a => a * 1114112 + c.toNat) 0

/-- An injective numeric code for `TypeInfo`, used by the modelled hash. -/
def TypeInfo.code : TypeInfo → Nat
  | .Boolean => 0
  | .UnsignedInteger bits => 6 * bits + 1
  | .Custom n => 6 * stringCode n + 2
  | .UnknownGeneric n => 6 * stringCode n + 3
  | .SelfType => 4
  | .ErrorRecovery => 5

/-- Modelled from the spec: the `Hash` implementation hashes exactly the
fields that participate in equality — the name text, the looked-up structural
type of the resolved type id, and the mutability flag; span fields are
excluded (source lines 24-26 state the `k1 == k2 -> hash(k1) == hash(k2)`
invariant this must uphold). -/
def TypedFunctionParameter.hashParam (eng : TypeEngine) (p : TypedFunctionParameter) :
    Nat :=
  Nat.pair (stringCode p.name.text)
    (Nat.pair (TypeInfo.code (look_up_type_id eng p.type_id)) (cond p.is_mutable 1 0))

/-- `is_self` (source lines 42-44). -/
def TypedFunctionParameter.is_self (p : TypedFunctionParameter) : Bool :=
  p.name.text == "self"

/-- `copy_types` (source lines 35-39): rewrites only the resolved `type_id`
through `update_type`. -/
def TypedFunctionParameter.copy_types (p : TypedFunctionParameter)
    (type_mapping : TypeMapping) : TypedFunctionParameter :=
  { p with type_id := p.type_id.update_type type_mapping p.type_span }

/-- `insert_into_namespace` (source lines 187-206): binds the parameter's name
in the scope to a variable declaration whose body's return type and type
ascription are the resolved `type_id` and whose mutability is the converted
immutability classification. -/
def insert_into_namespace (ns : Namespace) (typed_parameter : TypedFunctionParameter) :
    Namespace :=
  ns.insert_symbol typed_parameter.name
    (TypedDeclaration.VariableDeclaration
      { name := typed_parameter.name
        body :=
          { expression := TypedExpressionVariant.FunctionParameter
            return_type := typed_parameter.type_id
            is_constant := IsConstant.No
            span := typed_parameter.name.span }
        mutability :=
          convert_to_variable_immutability typed_parameter.is_reference
            typed_parameter.is_mutable
        type_ascription := typed_parameter.type_id
        type_ascription_span := some typed_parameter.type_span })

/-- Result of running one checking variant: the `CompileResult`, the (grown)
type engine, and the (possibly mutated) namespace. -/
structure CheckResult where
  result : CompileResult TypedFunctionParameter
  engine : TypeEngine
  spaceOut : Namespace
deriving DecidableEq, Repr

/-- `type_check` (source lines 46-95), the free-function variant: intern the
written type, resolve it against the context's self binding (falling back to
a freshly interned `ErrorRecovery` on failure, diagnostics appended by the
`check!` idiom), then apply the mutability hard check — a `Mutable`
classification pushes `MutableParameterNotSupported` and returns `err` —
otherwise construct the typed parameter, insert it into the namespace and
return `ok`. -/
def TypedFunctionParameter.type_check (eng : TypeEngine) (ctx : TypeCheckContext)
    (parameter : FunctionParameter) : CheckResult :=
  let interned := insert_type eng parameter.type_info
  let initial_type_id := interned.1
  let res := resolve_type_with_self interned.2 ctx.nspace ctx.self_type initial_type_id
    parameter.type_span EnforceTypeArguments.Yes
  let warnings := res.warnings
  let errors := res.errors
  let recovered :=
    match res.value with
    | some v => (v, interned.2)
    | none => insert_type interned.2 TypeInfo.ErrorRecovery
  let type_id := recovered.1
  let mutability :=
    convert_to_variable_immutability parameter.is_reference parameter.is_mutable
  if mutability = VariableMutability.Mutable then
    { result :=
        err warnings
          (errors ++ [CompileError.MutableParameterNotSupported parameter.name])
      engine := recovered.2
      spaceOut := ctx.nspace }
  else
    let typed_parameter : TypedFunctionParameter :=
      { name := parameter.name
        is_reference := parameter.is_reference
        is_mutable := parameter.is_mutable
        mutability_span := parameter.mutability_span
        type_id := type_id
        initial_type_id := initial_type_id
        type_span := parameter.type_span }
    { result := ok typed_parameter warnings errors
      engine := recovered.2
      spaceOut := insert_into_namespace ctx.nspace typed_parameter }

/-- `type_check_method_parameter` (source lines 97-140): identical to
`type_check` except that it performs no mutability hard check. -/
def TypedFunctionParameter.type_check_method_parameter (eng : TypeEngine)
    (ctx : TypeCheckContext) (parameter : FunctionParameter) : CheckResult :=
  let interned := insert_type eng parameter.type_info
  let initial_type_id := interned.1
  let res := resolve_type_with_self interned.2 ctx.nspace ctx.self_type initial_type_id
    parameter.type_span EnforceTypeArguments.Yes
  let warnings := res.warnings
  let errors := res.errors
  let recovered :=
    match res.value with
    | some v => (v, interned.2)
    | none => insert_type interned.2 TypeInfo.ErrorRecovery
  let type_id := recovered.1
  let typed_parameter : TypedFunctionParameter :=
    { name := parameter.name
      is_reference := parameter.is_reference
      is_mutable := parameter.is_mutable
      mutability_span := parameter.mutability_span
      type_id := type_id
      initial_type_id := initial_type_id
      type_span := parameter.type_span }
  { result := ok typed_parameter warnings errors
    engine := recovered.2
    spaceOut := insert_into_namespace ctx.nspace typed_parameter }

/-- `type_check_interface_parameter` (source lines 142-184): resolves against
a self binding equal to the freshly interned abstract `SelfType` placeholder
(the `insert_type(TypeInfo::SelfType)` argument of the source call), performs
no mutability check, and performs no namespace insertion. -/
def TypedFunctionParameter.type_check_interface_parameter (eng : TypeEngine)
    (ns : Namespace) (parameter : FunctionParameter) : CheckResult :=
  let interned := insert_type eng parameter.type_info
  let initial_type_id := interned.1
  let selfInterned := insert_type interned.2 TypeInfo.SelfType
  let res := resolve_type_with_self selfInterned.2 ns (some selfInterned.1)
    initial_type_id parameter.type_span EnforceTypeArguments.Yes
  let warnings := res.warnings
  let errors := res.errors
  let recovered :=
    match res.value with
    | some v => (v, selfInterned.2)
    | none => insert_type selfInterned.2 TypeInfo.ErrorRecovery
  let type_id := recovered.1
  let typed_parameter : TypedFunctionParameter :=
    { name := parameter.name
      is_reference := parameter.is_reference
      is_mutable := parameter.is_mutable
      mutability_span := parameter.mutability_span
      type_id := type_id
      initial_type_id := initial_type_id
      type_span := parameter.type_span }
  { result := ok typed_parameter warnings errors
    engine := recovered.2
    spaceOut := ns }

/-! Supporting lemmas about the type engine, the resolver and the namespace. -/

theorem findType_getD (t : TypeInfo) (d : TypeInfo) :
    ∀ (l : List TypeInfo) (i : Nat), findType l t = some i → l.getD i d = t := by
  intro l
  induction l with
  | nil => intro i h; simp [findType] at h
  | cons hd tl ih =>
    intro i h
    by_cases hh : hd = t
    · simp [findType, hh] at h
      subst h
      simpa using hh
    · simp [findType, hh] at h
      obtain ⟨j, hj, hji⟩ := h
      subst hji
      simpa [List.getD] using ih j hj

theorem getD_append_length (t : TypeInfo) (d : TypeInfo) :
    ∀ l : List TypeInfo, (l ++ [t]).getD l.length d = t := by
  intro l
  induction l with
  | nil => simp [List.getD]
  | cons hd tl _ih => simp [List.getD]

/-- Interning then looking up the returned handle yields the interned
structure. -/
theorem insert_type_look_up (eng : TypeEngine) (t : TypeInfo) :
    look_up_type_id (insert_type eng t).2 (insert_type eng t).1 = t := by
  unfold insert_type
  cases hf : findType eng.types t with
  | some i => simpa [look_up_type_id] using findType_getD t TypeInfo.ErrorRecovery eng.types i hf
  | none => simp [look_up_type_id, getD_append_length]

theorem findType_append_self (t : TypeInfo) :
    ∀ l : List TypeInfo, findType l t = none → findType (l ++ [t]) t = some l.length := by
  intro l
  induction l with
  | nil => intro _; simp [findType]
  | cons hd tl ih =>
    intro h
    by_cases hh : hd = t
    · simp [findType, hh] at h
    · simp [findType, hh] at h ⊢
      exact ih h

/-- Deduplication: interning a structure already present returns the same
handle and leaves the table unchanged. -/
theorem insert_type_idem (eng : TypeEngine) (t : TypeInfo) :
    insert_type (insert_type eng t).2 t = insert_type eng t := by
  unfold insert_type
  cases hf : findType eng.types t with
  | some i => simp [hf]
  | none => simp [findType_append_self t eng.types hf]

/-- The resolver never produces a `MutableParameterNotSupported` error. -/
theorem resolve_no_mutable_error (eng : TypeEngine) (ns : Namespace)
    (self_type : Option TypeId) (type_id : TypeId) (span : Span)
    (enforce : EnforceTypeArguments) :
    ((resolve_type_with_self eng ns self_type type_id span enforce).errors).countP
      (fun e => e.isMutableParameterNotSupported) = 0 := by
  unfold resolve_type_with_self
  cases h : look_up_type_id eng type_id
  case SelfType =>
    cases self_type <;> simp [ok, err, CompileError.isMutableParameterNotSupported]
  case Custom n =>
    cases hf : ns.type_decls.find? (fun d => d.1 == n) <;>
      simp [hf, ok, err, CompileError.isMutableParameterNotSupported]
  all_goals simp [ok, err]

/-- A failed resolution carries exactly one diagnostic. -/
theorem resolve_fail_one_error (eng : TypeEngine) (ns : Namespace)
    (self_type : Option TypeId) (type_id : TypeId) (span : Span)
    (enforce : EnforceTypeArguments)
    (h : (resolve_type_with_self eng ns self_type type_id span enforce).value = none) :
    ((resolve_type_with_self eng ns self_type type_id span enforce).errors).length = 1 := by
  unfold resolve_type_with_self at h ⊢
  cases hl : look_up_type_id eng type_id
  case SelfType =>
    rw [hl] at h
    cases self_type <;> simp [ok, err] at h ⊢
  case Custom n =>
    rw [hl] at h
    cases hf : ns.type_decls.find? (fun d => d.1 == n) <;> simp [hf, ok, err] at h ⊢
  all_goals (rw [hl] at h; simp [ok, err] at h)

/-- Looking up a name right after inserting it yields the inserted item. -/
theorem lookup_insert_symbol (ns : Namespace) (name : Ident) (item : TypedDeclaration) :
    (ns.insert_symbol name item).lookup_symbol name.text = some item := by
  simp [Namespace.insert_symbol, Namespace.lookup_symbol]

/-! Named views of the intermediate results of the three checking variants,
used to state and prove the properties below. Each is definitionally equal to
the corresponding step inside the checking functions (see the `..._eq`
characterization lemmas, all proved by `rfl`). -/

/-- The resolver call made by `type_check` and `type_check_method_parameter`:
the written type is interned first and the interned handle is resolved. -/
def free_resolution (eng : TypeEngine) (ctx : TypeCheckContext)
    (parameter : FunctionParameter) : CompileResult TypeId :=
  resolve_type_with_self (insert_type eng parameter.type_info).2 ctx.nspace ctx.self_type
    (insert_type eng parameter.type_info).1 parameter.type_span EnforceTypeArguments.Yes

/-- The resolved type id and engine after the `check!` fallback in
`type_check`/`type_check_method_parameter`: the resolver's value on success,
a freshly interned `ErrorRecovery` on failure. -/
def free_recovery (eng : TypeEngine) (ctx : TypeCheckContext)
    (parameter : FunctionParameter) : TypeId × TypeEngine :=
  match (free_resolution eng ctx parameter).value with
  | some v => (v, (insert_type eng parameter.type_info).2)
  | none => insert_type (insert_type eng parameter.type_info).2 TypeInfo.ErrorRecovery

/-- The typed parameter record constructed by
`type_check`/`type_check_method_parameter`. -/
def free_typed (eng : TypeEngine) (ctx : TypeCheckContext)
    (parameter : FunctionParameter) : TypedFunctionParameter :=
  { name := parameter.name
    is_reference := parameter.is_reference
    is_mutable := parameter.is_mutable
    mutability_span := parameter.mutability_span
    type_id := (free_recovery eng ctx parameter).1
    initial_type_id := (insert_type eng parameter.type_info).1
    type_span := parameter.type_span }

/-- The interned abstract self placeholder used by
`type_check_interface_parameter`. -/
def iface_self (eng : TypeEngine) (parameter : FunctionParameter) :
    TypeId × TypeEngine :=
  insert_type (insert_type eng parameter.type_info).2 TypeInfo.SelfType

/-- The resolver call made by `type_check_interface_parameter`. -/
def interface_resolution (eng : TypeEngine) (ns : Namespace)
    (parameter : FunctionParameter) : CompileResult TypeId :=
  resolve_type_with_self (iface_self eng parameter).2 ns
    (some (iface_self eng parameter).1) (insert_type eng parameter.type_info).1
    parameter.type_span EnforceTypeArguments.Yes

/-- The resolved type id and engine after the `check!` fallback in
`type_check_interface_parameter`. -/
def iface_recovery (eng : TypeEngine) (ns : Namespace)
    (parameter : FunctionParameter) : TypeId × TypeEngine :=
  match (interface_resolution eng ns parameter).value with
  | some v => (v, (iface_self eng parameter).2)
  | none => insert_type (iface_self eng parameter).2 TypeInfo.ErrorRecovery

/-- The typed parameter record constructed by
`type_check_interface_parameter`. -/
def iface_typed (eng : TypeEngine) (ns : Namespace)
    (parameter : FunctionParameter) : TypedFunctionParameter :=
  { name := parameter.name
    is_reference := parameter.is_reference
    is_mutable := parameter.is_mutable
    mutability_span := parameter.mutability_span
    type_id := (iface_recovery eng ns parameter).1
    initial_type_id := (insert_type eng parameter.type_info).1
    type_span := parameter.type_span }

/-- `type_check` written in terms of the named views. -/
theorem type_check_eq (eng : TypeEngine) (ctx : TypeCheckContext)
    (parameter : FunctionParameter) :
    TypedFunctionParameter.type_check eng ctx parameter =
      if convert_to_variable_immutability parameter.is_reference parameter.is_mutable =
          VariableMutability.Mutable then
        { result :=
            err (free_resolution eng ctx parameter).warnings
              ((free_resolution eng ctx parameter).errors ++
                [CompileError.MutableParameterNotSupported parameter.name])
          engine := (free_recovery eng ctx parameter).2
          spaceOut := ctx.nspace }
      else
        { result :=
            ok (free_typed eng ctx parameter) (free_resolution eng ctx parameter).warnings
              (free_resolution eng ctx parameter).errors
          engine := (free_recovery eng ctx parameter).2
          spaceOut := insert_into_namespace ctx.nspace (free_typed eng ctx parameter) } :=
  rfl

/-- `type_check_method_parameter` written in terms of the named views. -/
theorem type_check_method_parameter_eq (eng : TypeEngine) (ctx : TypeCheckContext)
    (parameter : FunctionParameter) :
    TypedFunctionParameter.type_check_method_parameter eng ctx parameter =
      { result :=
          ok (free_typed eng ctx parameter) (free_resolution eng ctx parameter).warnings
            (free_resolution eng ctx parameter).errors
        engine := (free_recovery eng ctx parameter).2
        spaceOut := insert_into_namespace ctx.nspace (free_typed eng ctx parameter) } :=
  rfl

/-- `type_check_interface_parameter` written in terms of the named views. -/
theorem type_check_interface_parameter_eq (eng : TypeEngine) (ns : Namespace)
    (parameter : FunctionParameter) :
    TypedFunctionParameter.type_check_interface_parameter eng ns parameter =
      { result :=
          ok (iface_typed eng ns parameter) (interface_resolution eng ns parameter).warnings
            (interface_resolution eng ns parameter).errors
        engine := (iface_recovery eng ns parameter).2
        spaceOut := ns } :=
  rfl

/-- On resolution failure the `check!` fallback interns `ErrorRecovery`. -/
theorem free_recovery_fail (eng : TypeEngine) (ctx : TypeCheckContext)
    (parameter : FunctionParameter)
    (h : (free_resolution eng ctx parameter).value = none) :
    free_recovery eng ctx parameter =
      insert_type (insert_type eng parameter.type_info).2 TypeInfo.ErrorRecovery := by
  unfold free_recovery
  rw [h]

/-- On resolution failure the interface variant's fallback interns
`ErrorRecovery`. -/
theorem iface_recovery_fail (eng : TypeEngine) (ns : Namespace)
    (parameter : FunctionParameter)
    (h : (interface_resolution eng ns parameter).value = none) :
    iface_recovery eng ns parameter =
      insert_type (iface_self eng parameter).2 TypeInfo.ErrorRecovery := by
  unfold iface_recovery
  rw [h]

/-! The claims. -/

/-- C1: in each of the three checking variants, a failed type resolution
still constructs and returns a `TypedFunctionParameter` whose resolved
`type_id` looks up to the `ErrorRecovery` sentinel, with the resolution
diagnostics (exactly one) as the accumulated error list — checking never
aborts on a resolution failure (in the free-function variant, provided the
computed mutability is not `Mutable`). -/
theorem c1_resolution_failure_recovers (eng : TypeEngine) (ctx : TypeCheckContext)
    (ns : Namespace) (parameter : FunctionParameter) :
    ((free_resolution eng ctx parameter).value = none →
      convert_to_variable_immutability parameter.is_reference parameter.is_mutable ≠
          VariableMutability.Mutable →
      (TypedFunctionParameter.type_check eng ctx parameter).result.value =
          some (free_typed eng ctx parameter) ∧
        look_up_type_id (TypedFunctionParameter.type_check eng ctx parameter).engine
          (free_typed eng ctx parameter).type_id = TypeInfo.ErrorRecovery ∧
        (TypedFunctionParameter.type_check eng ctx parameter).result.errors =
          (free_resolution eng ctx parameter).errors ∧
        ((free_resolution eng ctx parameter).errors).length = 1) ∧
    ((free_resolution eng ctx parameter).value = none →
      (TypedFunctionParameter.type_check_method_parameter eng ctx parameter).result.value =
          some (free_typed eng ctx parameter) ∧
        look_up_type_id
          (TypedFunctionParameter.type_check_method_parameter eng ctx parameter).engine
          (free_typed eng ctx parameter).type_id = TypeInfo.ErrorRecovery ∧
        (TypedFunctionParameter.type_check_method_parameter eng ctx parameter).result.errors =
          (free_resolution eng ctx parameter).errors ∧
        ((free_resolution eng ctx parameter).errors).length = 1) ∧
    ((interface_resolution eng ns parameter).value = none →
      (TypedFunctionParameter.type_check_interface_parameter eng ns parameter).result.value =
          some (iface_typed eng ns parameter) ∧
        look_up_type_id
          (TypedFunctionParameter.type_check_interface_parameter eng ns parameter).engine
          (iface_typed eng ns parameter).type_id = TypeInfo.ErrorRecovery ∧
        (TypedFunctionParameter.type_check_interface_parameter eng ns parameter).result.errors =
          (interface_resolution eng ns parameter).errors ∧
        ((interface_resolution eng ns parameter).errors).length = 1) := by
  refine ⟨?_, ?_, ?_⟩
  · intro hres hmut
    rw [type_check_eq, if_neg hmut]
    refine ⟨rfl, ?_, rfl, resolve_fail_one_error _ _ _ _ _ _ hres⟩
    show look_up_type_id (free_recovery eng ctx parameter).2
      (free_recovery eng ctx parameter).1 = TypeInfo.ErrorRecovery
    rw [free_recovery_fail eng ctx parameter hres]
    exact insert_type_look_up _ _
  · intro hres
    rw [type_check_method_parameter_eq]
    refine ⟨rfl, ?_, rfl, resolve_fail_one_error _ _ _ _ _ _ hres⟩
    show look_up_type_id (free_recovery eng ctx parameter).2
      (free_recovery eng ctx parameter).1 = TypeInfo.ErrorRecovery
    rw [free_recovery_fail eng ctx parameter hres]
    exact insert_type_look_up _ _
  · intro hres
    rw [type_check_interface_parameter_eq]
    refine ⟨rfl, ?_, rfl, resolve_fail_one_error _ _ _ _ _ _ hres⟩
    show look_up_type_id (iface_recovery eng ns parameter).2
      (iface_recovery eng ns parameter).1 = TypeInfo.ErrorRecovery
    rw [iface_recovery_fail eng ns parameter hres]
    exact insert_type_look_up _ _

/-- C1 witness: a free-function parameter written with an undefined type name
in an empty namespace fails resolution, yet a typed parameter is produced,
its resolved type looks up to `ErrorRecovery`, and exactly one diagnostic is
accumulated. -/
theorem c1_resolution_failure_recovers_witness :
    (TypedFunctionParameter.type_check ⟨[]⟩ ⟨⟨[], []⟩, none⟩
        ⟨⟨"y", ⟨1⟩⟩, false, false, ⟨2⟩, TypeInfo.Custom "Undefined", ⟨3⟩⟩).result.value =
      some (free_typed ⟨[]⟩ ⟨⟨[], []⟩, none⟩
        ⟨⟨"y", ⟨1⟩⟩, false, false, ⟨2⟩, TypeInfo.Custom "Undefined", ⟨3⟩⟩) ∧
    look_up_type_id
      (TypedFunctionParameter.type_check ⟨[]⟩ ⟨⟨[], []⟩, none⟩
        ⟨⟨"y", ⟨1⟩⟩, false, false, ⟨2⟩, TypeInfo.Custom "Undefined", ⟨3⟩⟩).engine
      (free_typed ⟨[]⟩ ⟨⟨[], []⟩, none⟩
        ⟨⟨"y", ⟨1⟩⟩, false, false, ⟨2⟩, TypeInfo.Custom "Undefined", ⟨3⟩⟩).type_id =
      TypeInfo.ErrorRecovery ∧
    (TypedFunctionParameter.type_check ⟨[]⟩ ⟨⟨[], []⟩, none⟩
        ⟨⟨"y", ⟨1⟩⟩, false, false, ⟨2⟩, TypeInfo.Custom "Undefined", ⟨3⟩⟩).result.errors =
      (free_resolution ⟨[]⟩ ⟨⟨[], []⟩, none⟩
        ⟨⟨"y", ⟨1⟩⟩, false, false, ⟨2⟩, TypeInfo.Custom "Undefined", ⟨3⟩⟩).errors ∧
    ((free_resolution ⟨[]⟩ ⟨⟨[], []⟩, none⟩
        ⟨⟨"y", ⟨1⟩⟩, false, false, ⟨2⟩, TypeInfo.Custom "Undefined", ⟨3⟩⟩).errors).length = 1 :=
  (c1_resolution_failure_recovers ⟨[]⟩ ⟨⟨[], []⟩, none⟩ ⟨[], []⟩
    ⟨⟨"y", ⟨1⟩⟩, false, false, ⟨2⟩, TypeInfo.Custom "Undefined", ⟨3⟩⟩).1
    (by decide) (by decide)

/-- C2: a parameter whose computed mutability is `Mutable` makes the
free-function variant fail with exactly one `MutableParameterNotSupported`
error and no typed parameter, while the method variant applied to the same
parameter (under any context) succeeds with a typed parameter. -/
theorem c2_mutable_parameter_free_vs_method (eng : TypeEngine) (ctx : TypeCheckContext)
    (parameter : FunctionParameter)
    (hmut : convert_to_variable_immutability parameter.is_reference parameter.is_mutable =
      VariableMutability.Mutable) :
    (TypedFunctionParameter.type_check eng ctx parameter).result.value = none ∧
    ((TypedFunctionParameter.type_check eng ctx parameter).result.errors).countP
      (fun e => e.isMutableParameterNotSupported) = 1 ∧
    (TypedFunctionParameter.type_check_method_parameter eng ctx parameter).result.value =
      some (free_typed eng ctx parameter) := by
  rw [type_check_eq, if_pos hmut, type_check_method_parameter_eq]
  refine ⟨rfl, ?_, rfl⟩
  show ((free_resolution eng ctx parameter).errors ++
      [CompileError.MutableParameterNotSupported parameter.name]).countP
      (fun e => e.isMutableParameterNotSupported) = 1
  rw [List.countP_append]
  unfold free_resolution
  rw [resolve_no_mutable_error]
  simp [CompileError.isMutableParameterNotSupported]

/-- C2 witness: a by-value mutable parameter (`is_reference = false`,
`is_mutable = true`) is rejected by `type_check` with one
`MutableParameterNotSupported` error while `type_check_method_parameter`
accepts it. -/
theorem c2_mutable_parameter_free_vs_method_witness :
    (TypedFunctionParameter.type_check ⟨[TypeInfo.Boolean]⟩ ⟨⟨[], [("bool", 0)]⟩, none⟩
        ⟨⟨"z", ⟨1⟩⟩, false, true, ⟨2⟩, TypeInfo.Custom "bool", ⟨3⟩⟩).result.value = none ∧
    ((TypedFunctionParameter.type_check ⟨[TypeInfo.Boolean]⟩ ⟨⟨[], [("bool", 0)]⟩, none⟩
        ⟨⟨"z", ⟨1⟩⟩, false, true, ⟨2⟩, TypeInfo.Custom "bool", ⟨3⟩⟩).result.errors).countP
      (fun e => e.isMutableParameterNotSupported) = 1 ∧
    (TypedFunctionParameter.type_check_method_parameter ⟨[TypeInfo.Boolean]⟩
        ⟨⟨[], [("bool", 0)]⟩, none⟩
        ⟨⟨"z", ⟨1⟩⟩, false, true, ⟨2⟩, TypeInfo.Custom "bool", ⟨3⟩⟩).result.value =
      some (free_typed ⟨[TypeInfo.Boolean]⟩ ⟨⟨[], [("bool", 0)]⟩, none⟩
        ⟨⟨"z", ⟨1⟩⟩, false, true, ⟨2⟩, TypeInfo.Custom "bool", ⟨3⟩⟩) :=
  c2_mutable_parameter_free_vs_method ⟨[TypeInfo.Boolean]⟩ ⟨⟨[], [("bool", 0)]⟩, none⟩
    ⟨⟨"z", ⟨1⟩⟩, false, true, ⟨2⟩, TypeInfo.Custom "bool", ⟨3⟩⟩ (by decide)

/-- C3: two `TypedFunctionParameter`s are equal iff their names are equal,
the `TypeInfo` structures looked up from their resolved type ids are equal,
and their `is_mutable` flags are equal; span fields (the identifier's span,
the mutability span and the type span) never affect equality; and equality
implies hash equality. -/
theorem c3_equality_lookup_and_hash (eng : TypeEngine) (p1 p2 : TypedFunctionParameter) :
    (TypedFunctionParameter.eqParam eng p1 p2 = true ↔
      (p1.name.text = p2.name.text ∧
        look_up_type_id eng p1.type_id = look_up_type_id eng p2.type_id ∧
        p1.is_mutable = p2.is_mutable)) ∧
    (∀ ns1 ms1 ts1 ns2 ms2 ts2 : Span,
      TypedFunctionParameter.eqParam eng
          { p1 with name := ⟨p1.name.text, ns1⟩, mutability_span := ms1, type_span := ts1 }
          { p2 with name := ⟨p2.name.text, ns2⟩, mutability_span := ms2, type_span := ts2 } =
        TypedFunctionParameter.eqParam eng p1 p2) ∧
    (TypedFunctionParameter.eqParam eng p1 p2 = true →
      TypedFunctionParameter.hashParam eng p1 = TypedFunctionParameter.hashParam eng p2) := by
  have hiff : TypedFunctionParameter.eqParam eng p1 p2 = true ↔
      (p1.name.text = p2.name.text ∧
        look_up_type_id eng p1.type_id = look_up_type_id eng p2.type_id ∧
        p1.is_mutable = p2.is_mutable) := by
    simp [TypedFunctionParameter.eqParam, Ident.eqIdent, Bool.and_eq_true, and_assoc]
  refine ⟨hiff, fun ns1 ms1 ts1 ns2 ms2 ts2 => rfl, fun h => ?_⟩
  obtain ⟨hn, ht, hm⟩ := hiff.mp h
  simp [TypedFunctionParameter.hashParam, hn, ht, hm]

/-- C3 witness: two parameters sharing name text, looked-up type and
mutability but differing in every span and in `is_reference` compare equal
and hash equal. -/
theorem c3_equality_lookup_and_hash_witness :
    TypedFunctionParameter.hashParam ⟨[TypeInfo.Boolean]⟩
        ⟨⟨"x", ⟨0⟩⟩, false, false, ⟨1⟩, 0, 0, ⟨2⟩⟩ =
      TypedFunctionParameter.hashParam ⟨[TypeInfo.Boolean]⟩
        ⟨⟨"x", ⟨5⟩⟩, true, false, ⟨6⟩, 0, 3, ⟨7⟩⟩ :=
  (c3_equality_lookup_and_hash ⟨[TypeInfo.Boolean]⟩
    ⟨⟨"x", ⟨0⟩⟩, false, false, ⟨1⟩, 0, 0, ⟨2⟩⟩
    ⟨⟨"x", ⟨5⟩⟩, true, false, ⟨6⟩, 0, 3, ⟨7⟩⟩).2.2 (by decide)

/-- C10: equality of `TypedFunctionParameter` ignores the `is_reference`
field — flipping it (to any value) preserves equality — even though the
derived effective mutability always differs between the two reference flags
for any fixed `is_mutable`. -/
theorem c10_is_reference_ignored_by_equality (eng : TypeEngine)
    (p : TypedFunctionParameter) (b : Bool) :
    TypedFunctionParameter.eqParam eng { p with is_reference := b } p = true ∧
    (∀ m : Bool,
      convert_to_variable_immutability (!b) m ≠ convert_to_variable_immutability b m) := by
  constructor
  · simp [TypedFunctionParameter.eqParam, Ident.eqIdent]
  · intro m
    cases b <;> cases m <;> decide

/-- C10 witness: two concrete parameters differing only in `is_reference`
compare equal although their converted immutability classifications differ. -/
theorem c10_is_reference_ignored_by_equality_witness :
    TypedFunctionParameter.eqParam ⟨[TypeInfo.Boolean]⟩
        ⟨⟨"x", ⟨0⟩⟩, true, true, ⟨1⟩, 0, 0, ⟨2⟩⟩
        ⟨⟨"x", ⟨0⟩⟩, false, true, ⟨1⟩, 0, 0, ⟨2⟩⟩ = true ∧
    convert_to_variable_immutability false true ≠
      convert_to_variable_immutability true true :=
  ⟨(c10_is_reference_ignored_by_equality ⟨[TypeInfo.Boolean]⟩
      ⟨⟨"x", ⟨0⟩⟩, false, true, ⟨1⟩, 0, 0, ⟨2⟩⟩ true).1,
    (c10_is_reference_ignored_by_equality ⟨[TypeInfo.Boolean]⟩
      ⟨⟨"x", ⟨0⟩⟩, false, true, ⟨1⟩, 0, 0, ⟨2⟩⟩ true).2 true⟩

/-- C4: on success, the free-function and method variants bind the
parameter's name in the scope to a variable declaration whose body return
type and type ascription are the resolved `type_id` and whose mutability is
the converted immutability classification; the interface variant leaves the
namespace unchanged. -/
theorem c4_namespace_insertion_on_success (eng : TypeEngine) (ctx : TypeCheckContext)
    (ns : Namespace) (parameter : FunctionParameter) (p : TypedFunctionParameter) :
    ((TypedFunctionParameter.type_check eng ctx parameter).result.value = some p →
      (TypedFunctionParameter.type_check eng ctx parameter).spaceOut.lookup_symbol
          p.name.text =
        some (TypedDeclaration.VariableDeclaration
          { name := p.name
            body :=
              { expression := TypedExpressionVariant.FunctionParameter
                return_type := p.type_id
                is_constant := IsConstant.No
                span := p.name.span }
            mutability := convert_to_variable_immutability p.is_reference p.is_mutable
            type_ascription := p.type_id
            type_ascription_span := some p.type_span })) ∧
    ((TypedFunctionParameter.type_check_method_parameter eng ctx parameter).result.value =
        some p →
      (TypedFunctionParameter.type_check_method_parameter eng ctx parameter).spaceOut.lookup_symbol
          p.name.text =
        some (TypedDeclaration.VariableDeclaration
          { name := p.name
            body :=
              { expression := TypedExpressionVariant.FunctionParameter
                return_type := p.type_id
                is_constant := IsConstant.No
                span := p.name.span }
            mutability := convert_to_variable_immutability p.is_reference p.is_mutable
            type_ascription := p.type_id
            type_ascription_span := some p.type_span })) ∧
    (TypedFunctionParameter.type_check_interface_parameter eng ns parameter).spaceOut = ns := by
  refine ⟨?_, ?_, rfl⟩
  · intro hv
    rw [type_check_eq] at hv ⊢
    by_cases hm : convert_to_variable_immutability parameter.is_reference
        parameter.is_mutable = VariableMutability.Mutable
    · rw [if_pos hm] at hv
      exact absurd hv (by simp [err])
    · rw [if_neg hm] at hv ⊢
      have hp : free_typed eng ctx parameter = p := by simpa [ok] using hv
      subst hp
      exact lookup_insert_symbol ctx.nspace (free_typed eng ctx parameter).name _
  · intro hv
    rw [type_check_method_parameter_eq] at hv ⊢
    have hp : free_typed eng ctx parameter = p := by simpa [ok] using hv
    subst hp
    exact lookup_insert_symbol ctx.nspace (free_typed eng ctx parameter).name _

/-- C4 witness: checking an ordinary parameter `x : bool` as a free-function
parameter binds `x` in the scope to an immutable variable of the resolved
type. -/
theorem c4_namespace_insertion_on_success_witness :
    (TypedFunctionParameter.type_check ⟨[TypeInfo.Boolean]⟩ ⟨⟨[], [("bool", 0)]⟩, none⟩
        ⟨⟨"x", ⟨1⟩⟩, false, false, ⟨2⟩, TypeInfo.Custom "bool", ⟨3⟩⟩).spaceOut.lookup_symbol
        (free_typed ⟨[TypeInfo.Boolean]⟩ ⟨⟨[], [("bool", 0)]⟩, none⟩
          ⟨⟨"x", ⟨1⟩⟩, false, false, ⟨2⟩, TypeInfo.Custom "bool", ⟨3⟩⟩).name.text =
      some (TypedDeclaration.VariableDeclaration
        { name := (free_typed ⟨[TypeInfo.Boolean]⟩ ⟨⟨[], [("bool", 0)]⟩, none⟩
            ⟨⟨"x", ⟨1⟩⟩, false, false, ⟨2⟩, TypeInfo.Custom "bool", ⟨3⟩⟩).name
          body :=
            { expression := TypedExpressionVariant.FunctionParameter
              return_type := (free_typed ⟨[TypeInfo.Boolean]⟩ ⟨⟨[], [("bool", 0)]⟩, none⟩
                ⟨⟨"x", ⟨1⟩⟩, false, false, ⟨2⟩, TypeInfo.Custom "bool", ⟨3⟩⟩).type_id
              is_constant := IsConstant.No
              span := (free_typed ⟨[TypeInfo.Boolean]⟩ ⟨⟨[], [("bool", 0)]⟩, none⟩
                ⟨⟨"x", ⟨1⟩⟩, false, false, ⟨2⟩, TypeInfo.Custom "bool", ⟨3⟩⟩).name.span }
          mutability :=
            convert_to_variable_immutability
              (free_typed ⟨[TypeInfo.Boolean]⟩ ⟨⟨[], [("bool", 0)]⟩, none⟩
                ⟨⟨"x", ⟨1⟩⟩, false, false, ⟨2⟩, TypeInfo.Custom "bool", ⟨3⟩⟩).is_reference
              (free_typed ⟨[TypeInfo.Boolean]⟩ ⟨⟨[], [("bool", 0)]⟩, none⟩
                ⟨⟨"x", ⟨1⟩⟩, false, false, ⟨2⟩, TypeInfo.Custom "bool", ⟨3⟩⟩).is_mutable
          type_ascription := (free_typed ⟨[TypeInfo.Boolean]⟩ ⟨⟨[], [("bool", 0)]⟩, none⟩
            ⟨⟨"x", ⟨1⟩⟩, false, false, ⟨2⟩, TypeInfo.Custom "bool", ⟨3⟩⟩).type_id
          type_ascription_span := some (free_typed ⟨[TypeInfo.Boolean]⟩
            ⟨⟨[], [("bool", 0)]⟩, none⟩
            ⟨⟨"x", ⟨1⟩⟩, false, false, ⟨2⟩, TypeInfo.Custom "bool", ⟨3⟩⟩).type_span }) :=
  (c4_namespace_insertion_on_success ⟨[TypeInfo.Boolean]⟩ ⟨⟨[], [("bool", 0)]⟩, none⟩
    ⟨[], []⟩ ⟨⟨"x", ⟨1⟩⟩, false, false, ⟨2⟩, TypeInfo.Custom "bool", ⟨3⟩⟩
    (free_typed ⟨[TypeInfo.Boolean]⟩ ⟨⟨[], [("bool", 0)]⟩, none⟩
      ⟨⟨"x", ⟨1⟩⟩, false, false, ⟨2⟩, TypeInfo.Custom "bool", ⟨3⟩⟩)).1 (by decide)

/-- C5: the interface variant resolves against a self binding equal to the
interned abstract `SelfType` placeholder, so a self-typed interface parameter
resolves (without diagnostics) to the placeholder identity, which is distinct
from the identity of any concrete (non-placeholder) type. -/
theorem c5_interface_self_resolves_to_placeholder (eng : TypeEngine) (ns : Namespace)
    (name : Ident) (is_reference is_mutable : Bool) (mutability_span type_span : Span) :
    (TypedFunctionParameter.type_check_interface_parameter eng ns
        ⟨name, is_reference, is_mutable, mutability_span, TypeInfo.SelfType,
          type_span⟩).result.value =
      some (iface_typed eng ns
        ⟨name, is_reference, is_mutable, mutability_span, TypeInfo.SelfType, type_span⟩) ∧
    look_up_type_id
      (TypedFunctionParameter.type_check_interface_parameter eng ns
        ⟨name, is_reference, is_mutable, mutability_span, TypeInfo.SelfType,
          type_span⟩).engine
      (iface_typed eng ns
        ⟨name, is_reference, is_mutable, mutability_span, TypeInfo.SelfType,
          type_span⟩).type_id = TypeInfo.SelfType ∧
    (∀ cid : TypeId,
      look_up_type_id
          (TypedFunctionParameter.type_check_interface_parameter eng ns
            ⟨name, is_reference, is_mutable, mutability_span, TypeInfo.SelfType,
              type_span⟩).engine cid ≠ TypeInfo.SelfType →
      (iface_typed eng ns
        ⟨name, is_reference, is_mutable, mutability_span, TypeInfo.SelfType,
          type_span⟩).type_id ≠ cid) ∧
    (TypedFunctionParameter.type_check_interface_parameter eng ns
        ⟨name, is_reference, is_mutable, mutability_span, TypeInfo.SelfType,
          type_span⟩).result.errors = [] := by
  have hidem : insert_type (insert_type eng TypeInfo.SelfType).2 TypeInfo.SelfType =
      insert_type eng TypeInfo.SelfType := insert_type_idem eng TypeInfo.SelfType
  have hres : interface_resolution eng ns
      ⟨name, is_reference, is_mutable, mutability_span, TypeInfo.SelfType, type_span⟩ =
      ok (insert_type eng TypeInfo.SelfType).1 [] [] := by
    unfold interface_resolution iface_self
    show resolve_type_with_self (insert_type (insert_type eng TypeInfo.SelfType).2
        TypeInfo.SelfType).2 ns
      (some (insert_type (insert_type eng TypeInfo.SelfType).2 TypeInfo.SelfType).1)
      (insert_type eng TypeInfo.SelfType).1 type_span EnforceTypeArguments.Yes =
      ok (insert_type eng TypeInfo.SelfType).1 [] []
    rw [hidem]
    unfold resolve_type_with_self
    rw [insert_type_look_up eng TypeInfo.SelfType]
  have hrec : iface_recovery eng ns
      ⟨name, is_reference, is_mutable, mutability_span, TypeInfo.SelfType, type_span⟩ =
      insert_type eng TypeInfo.SelfType := by
    unfold iface_recovery
    rw [hres]
    show ((insert_type eng TypeInfo.SelfType).1,
      (iface_self eng ⟨name, is_reference, is_mutable, mutability_span,
        TypeInfo.SelfType, type_span⟩).2) = insert_type eng TypeInfo.SelfType
    unfold iface_self
    show ((insert_type eng TypeInfo.SelfType).1,
      (insert_type (insert_type eng TypeInfo.SelfType).2 TypeInfo.SelfType).2) =
      insert_type eng TypeInfo.SelfType
    rw [hidem]
  have hlook : look_up_type_id
      (TypedFunctionParameter.type_check_interface_parameter eng ns
        ⟨name, is_reference, is_mutable, mutability_span, TypeInfo.SelfType,
          type_span⟩).engine
      (iface_typed eng ns
        ⟨name, is_reference, is_mutable, mutability_span, TypeInfo.SelfType,
          type_span⟩).type_id = TypeInfo.SelfType := by
    rw [type_check_interface_parameter_eq]
    show look_up_type_id
      (iface_recovery eng ns ⟨name, is_reference, is_mutable, mutability_span,
        TypeInfo.SelfType, type_span⟩).2
      (iface_recovery eng ns ⟨name, is_reference, is_mutable, mutability_span,
        TypeInfo.SelfType, type_span⟩).1 = TypeInfo.SelfType
    rw [hrec]
    exact insert_type_look_up eng TypeInfo.SelfType
  refine ⟨rfl, hlook, fun cid hcid heq => hcid ?_, ?_⟩
  · rw [← heq]
    exact hlook
  · rw [type_check_interface_parameter_eq]
    show (interface_resolution eng ns ⟨name, is_reference, is_mutable, mutability_span,
      TypeInfo.SelfType, type_span⟩).errors = []
    rw [hres]
    rfl

/-- C5 witness: with one concrete type interned, the placeholder identity
produced for a self-typed interface parameter differs from the concrete
type's identity (which looks up to `Boolean`, not `SelfType`). -/
theorem c5_interface_self_resolves_to_placeholder_witness :
    (iface_typed ⟨[TypeInfo.Boolean]⟩ ⟨[], []⟩
      ⟨⟨"self", ⟨1⟩⟩, false, false, ⟨2⟩, TypeInfo.SelfType, ⟨3⟩⟩).type_id ≠ 0 :=
  (c5_interface_self_resolves_to_placeholder ⟨[TypeInfo.Boolean]⟩ ⟨[], []⟩
    ⟨"self", ⟨1⟩⟩ false false ⟨2⟩ ⟨3⟩).2.2.1 0 (by decide)

/-- C6: in every variant, the returned typed parameter's `initial_type_id`
is the identity obtained by interning the written type expression —
resolution rewrites only the resolved `type_id`. -/
theorem c6_initial_type_id_is_interned_written_type (eng : TypeEngine)
    (ctx : TypeCheckContext) (ns : Namespace) (parameter : FunctionParameter)
    (p : TypedFunctionParameter) :
    ((TypedFunctionParameter.type_check eng ctx parameter).result.value = some p →
      p.initial_type_id = (insert_type eng parameter.type_info).1) ∧
    ((TypedFunctionParameter.type_check_method_parameter eng ctx parameter).result.value =
        some p →
      p.initial_type_id = (insert_type eng parameter.type_info).1) ∧
    ((TypedFunctionParameter.type_check_interface_parameter eng ns parameter).result.value =
        some p →
      p.initial_type_id = (insert_type eng parameter.type_info).1) := by
  refine ⟨?_, ?_, ?_⟩
  · intro hv
    rw [type_check_eq] at hv
    by_cases hm : convert_to_variable_immutability parameter.is_reference
        parameter.is_mutable = VariableMutability.Mutable
    · rw [if_pos hm] at hv
      exact absurd hv (by simp [err])
    · rw [if_neg hm] at hv
      have hp : free_typed eng ctx parameter = p := by simpa [ok] using hv
      rw [← hp]
      rfl
  · intro hv
    rw [type_check_method_parameter_eq] at hv
    have hp : free_typed eng ctx parameter = p := by simpa [ok] using hv
    rw [← hp]
    rfl
  · intro hv
    rw [type_check_interface_parameter_eq] at hv
    have hp : iface_typed eng ns parameter = p := by simpa [ok] using hv
    rw [← hp]
    rfl

/-- C6 witness: for a parameter whose written type fails to resolve, the
returned record still carries the interned written type as its
`initial_type_id`. -/
theorem c6_initial_type_id_is_interned_written_type_witness :
    (free_typed ⟨[]⟩ ⟨⟨[], []⟩, none⟩
        ⟨⟨"y", ⟨1⟩⟩, false, false, ⟨2⟩, TypeInfo.Custom "Undefined", ⟨3⟩⟩).initial_type_id =
      (insert_type ⟨[]⟩ (TypeInfo.Custom "Undefined")).1 :=
  (c6_initial_type_id_is_interned_written_type ⟨[]⟩ ⟨⟨[], []⟩, none⟩ ⟨[], []⟩
    ⟨⟨"y", ⟨1⟩⟩, false, false, ⟨2⟩, TypeInfo.Custom "Undefined", ⟨3⟩⟩
    (free_typed ⟨[]⟩ ⟨⟨[], []⟩, none⟩
      ⟨⟨"y", ⟨1⟩⟩, false, false, ⟨2⟩, TypeInfo.Custom "Undefined", ⟨3⟩⟩)).1 (by decide)

/-- C7: generic substitution rewrites only the resolved `type_id` (through
`update_type`); `initial_type_id`, name, flags and spans are unchanged, for
every parameter and every mapping. -/
theorem c7_copy_types_frame (p : TypedFunctionParameter) (type_mapping : TypeMapping) :
    (p.copy_types type_mapping).type_id = p.type_id.update_type type_mapping p.type_span ∧
    (p.copy_types type_mapping).initial_type_id = p.initial_type_id ∧
    (p.copy_types type_mapping).name = p.name ∧
    (p.copy_types type_mapping).is_reference = p.is_reference ∧
    (p.copy_types type_mapping).is_mutable = p.is_mutable ∧
    (p.copy_types type_mapping).mutability_span = p.mutability_span ∧
    (p.copy_types type_mapping).type_span = p.type_span :=
  ⟨rfl, rfl, rfl, rfl, rfl, rfl, rfl⟩

/-- C8: in every variant the written type is interned first and the interned
handle is then resolved (the error lists below are those of the resolver
applied to the interned handle in the post-interning engine), and in the
free-function variant the mutability hard check runs after resolution: when
`MutableParameterNotSupported` fires, the returned error sequence is the
resolution diagnostics followed by the mutability error. -/
theorem c8_intern_then_resolve_then_mutability (eng : TypeEngine)
    (ctx : TypeCheckContext) (ns : Namespace) (parameter : FunctionParameter) :
    (convert_to_variable_immutability parameter.is_reference parameter.is_mutable =
        VariableMutability.Mutable →
      (TypedFunctionParameter.type_check eng ctx parameter).result.errors =
        (free_resolution eng ctx parameter).errors ++
          [CompileError.MutableParameterNotSupported parameter.name]) ∧
    ((TypedFunctionParameter.type_check_method_parameter eng ctx parameter).result.errors =
      (free_resolution eng ctx parameter).errors) ∧
    ((TypedFunctionParameter.type_check_interface_parameter eng ns parameter).result.errors =
      (interface_resolution eng ns parameter).errors) := by
  refine ⟨fun hm => ?_, rfl, rfl⟩
  rw [type_check_eq, if_pos hm]
  rfl

/-- C8 witness: a mutable by-value parameter with an unresolvable type gets
both the resolution diagnostic and, after it, the mutability error. -/
theorem c8_intern_then_resolve_then_mutability_witness :
    (TypedFunctionParameter.type_check ⟨[]⟩ ⟨⟨[], []⟩, none⟩
        ⟨⟨"z", ⟨1⟩⟩, false, true, ⟨2⟩, TypeInfo.Custom "Undefined", ⟨3⟩⟩).result.errors =
      (free_resolution ⟨[]⟩ ⟨⟨[], []⟩, none⟩
        ⟨⟨"z", ⟨1⟩⟩, false, true, ⟨2⟩, TypeInfo.Custom "Undefined", ⟨3⟩⟩).errors ++
        [CompileError.MutableParameterNotSupported ⟨"z", ⟨1⟩⟩] :=
  (c8_intern_then_resolve_then_mutability ⟨[]⟩ ⟨⟨[], []⟩, none⟩ ⟨[], []⟩
    ⟨⟨"z", ⟨1⟩⟩, false, true, ⟨2⟩, TypeInfo.Custom "Undefined", ⟨3⟩⟩).1 (by decide)

/-- C9: in the free-function (when the computed mutability is not `Mutable`)
and method variants, the scope is mutated even when resolution failed: the
parameter is bound to a variable declaration whose declared type (body return
type and type ascription) looks up to the `ErrorRecovery` sentinel. -/
theorem c9_insertion_despite_resolution_failure (eng : TypeEngine)
    (ctx : TypeCheckContext) (parameter : FunctionParameter) :
    ((free_resolution eng ctx parameter).value = none →
      convert_to_variable_immutability parameter.is_reference parameter.is_mutable ≠
          VariableMutability.Mutable →
      (TypedFunctionParameter.type_check eng ctx parameter).spaceOut.lookup_symbol
          parameter.name.text =
        some (TypedDeclaration.VariableDeclaration
          { name := parameter.name
            body :=
              { expression := TypedExpressionVariant.FunctionParameter
                return_type := (free_recovery eng ctx parameter).1
                is_constant := IsConstant.No
                span := parameter.name.span }
            mutability := convert_to_variable_immutability parameter.is_reference
              parameter.is_mutable
            type_ascription := (free_recovery eng ctx parameter).1
            type_ascription_span := some parameter.type_span }) ∧
      look_up_type_id (TypedFunctionParameter.type_check eng ctx parameter).engine
        (free_recovery eng ctx parameter).1 = TypeInfo.ErrorRecovery) ∧
    ((free_resolution eng ctx parameter).value = none →
      (TypedFunctionParameter.type_check_method_parameter
          eng ctx parameter).spaceOut.lookup_symbol parameter.name.text =
        some (TypedDeclaration.VariableDeclaration
          { name := parameter.name
            body :=
              { expression := TypedExpressionVariant.FunctionParameter
                return_type := (free_recovery eng ctx parameter).1
                is_constant := IsConstant.No
                span := parameter.name.span }
            mutability := convert_to_variable_immutability parameter.is_reference
              parameter.is_mutable
            type_ascription := (free_recovery eng ctx parameter).1
            type_ascription_span := some parameter.type_span }) ∧
      look_up_type_id
        (TypedFunctionParameter.type_check_method_parameter eng ctx parameter).engine
        (free_recovery eng ctx parameter).1 = TypeInfo.ErrorRecovery) := by
  have hlook : (free_resolution eng ctx parameter).value = none →
      look_up_type_id (free_recovery eng ctx parameter).2
        (free_recovery eng ctx parameter).1 = TypeInfo.ErrorRecovery := by
    intro hres
    rw [free_recovery_fail eng ctx parameter hres]
    exact insert_type_look_up _ _
  constructor
  · intro hres hm
    rw [type_check_eq, if_neg hm]
    exact ⟨lookup_insert_symbol ctx.nspace parameter.name _, hlook hres⟩
  · intro hres
    rw [type_check_method_parameter_eq]
    exact ⟨lookup_insert_symbol ctx.nspace parameter.name _, hlook hres⟩

/-- C9 witness: a parameter with an undefined written type is still bound in
the scope, with the `ErrorRecovery` identity as its declared type. -/
theorem c9_insertion_despite_resolution_failure_witness :
    (TypedFunctionParameter.type_check ⟨[]⟩ ⟨⟨[], []⟩, none⟩
        ⟨⟨"y", ⟨1⟩⟩, false, false, ⟨2⟩, TypeInfo.Custom "Undefined",
          ⟨3⟩⟩).spaceOut.lookup_symbol "y" =
      some (TypedDeclaration.VariableDeclaration
        { name := ⟨"y", ⟨1⟩⟩
          body :=
            { expression := TypedExpressionVariant.FunctionParameter
              return_type := (free_recovery ⟨[]⟩ ⟨⟨[], []⟩, none⟩
                ⟨⟨"y", ⟨1⟩⟩, false, false, ⟨2⟩, TypeInfo.Custom "Undefined", ⟨3⟩⟩).1
              is_constant := IsConstant.No
              span := ⟨1⟩ }
          mutability := convert_to_variable_immutability false false
          type_ascription := (free_recovery ⟨[]⟩ ⟨⟨[], []⟩, none⟩
            ⟨⟨"y", ⟨1⟩⟩, false, false, ⟨2⟩, TypeInfo.Custom "Undefined", ⟨3⟩⟩).1
          type_ascription_span := some ⟨3⟩ }) ∧
    look_up_type_id
      (TypedFunctionParameter.type_check ⟨[]⟩ ⟨⟨[], []⟩, none⟩
        ⟨⟨"y", ⟨1⟩⟩, false, false, ⟨2⟩, TypeInfo.Custom "Undefined", ⟨3⟩⟩).engine
      (free_recovery ⟨[]⟩ ⟨⟨[], []⟩, none⟩
        ⟨⟨"y", ⟨1⟩⟩, false, false, ⟨2⟩, TypeInfo.Custom "Undefined", ⟨3⟩⟩).1 =
      TypeInfo.ErrorRecovery :=
  (c9_insertion_despite_resolution_failure ⟨[]⟩ ⟨⟨[], []⟩, none⟩
    ⟨⟨"y", ⟨1⟩⟩, false, false, ⟨2⟩, TypeInfo.Custom "Undefined", ⟨3⟩⟩).1
    (by decide) (by decide)

end Sway
